import Mathlib

/-
Verification of the SWOT point generator (app.py).

The repository is a single-file Streamlit app whose computational core is the
function generate_swot_point(text, swot_category, api_key).  It reads two
module-level constant dictionaries (SWOT_PROMPTS, SWOT_EXAMPLES), configures an
external generative-AI client, assembles a prompt string and submits it, mapping
every exception of the external library to a human-readable error string.

The embedding below is shallow: the two dictionaries become constant association
lists (the example paragraphs are embedded after applying textwrap.dedent, i.e.
with the common 12-space margin removed and whitespace-only lines blanked, which
is how the Python module-level code stores them); the external library
(genai.configure / GenerativeModel / model.generate_content) becomes an explicit
environment record whose calls may fail, and generate_swot_point additionally
returns the list of external-interaction events so that claims about what was
or was not submitted can be stated.  Python dict .get is an association-list
lookup; Python truthiness of an Optional str / Optional list is modelled by
pyFalsy / pyFalsyList; str.strip() is String.trim.
-/

namespace SwotApp

def opportunityExample1 : String :=
  "\nin January 2025, Elevance has acquired Indiana University (IU) Health Plans, to enhance its local presence, expanding product offerings. IU Health Plans is a managed care organization created by Indiana University Health which provides Medicare advantage plans to 19,000 people across 36 countries. This acquisition would elevate quality and would expand Elevance's product offerings. This acquisition would strengthen the company’s efforts to cultivate healthier communities and improve health outcomes for those they are privileged to serve. This strategic step is in line with Elevance’s health equity goals and allow it to provide comprehensive access to high-quality care and timely interventions.\n"

def opportunityExample2 : String :=
  "\nin September 2024, AT&T has announced its plan to introduce a Wi-Fi 7-capable gateway, to step forward in its commitment to deliver cutting-edge home connectivity. This Wi-Fi would aim to unlock the full potential of AT&T’s multi-gig fiber offerings by improving speed, latency, and the ability to handle next-generation digital services. Through this initiative, the company would be able to solidify its leadership in providing reliable, scalable, and forward-looking broadband solutions for residential users.\n"

def weaknessExample1 : String :=
  "\nBASF has agreed to pay a $700,000 civil penalty, to the U.S. Environmental Protection Agency (EPA) for the violation of the Toxic Substances Control Act (TSCA) related to the group’s chemical reporting obligations. According to EPA findings, BASF did not report required data on hundreds of chemical substances within the mandated timeframe, hindering the agency’s ability to assess potential public health and environmental risks. This settlement reinforces EPA’s commitment to fair but firm enforcement of environmental laws. It also serves as a reminder to the chemical industry of the importance of meeting federal reporting standards.\n"

def weaknessExample2 : String :=
  "\nin January 2025, AT&T has faced a lawsuit filed by Cornell University over a wireless fidelity (WI-FI) patent infringement. The lawsuit alleged that AT&T’s smartphones, routers, and other Wi-Fi-enabled products violate two patents related to Wi-Fi 5 and Wi-Fi 6 standards, which were granted to Cornell University in 2010 and 2011. The university seeks monetary damages and injunctive relief to prevent further use of the patented technology. This lawsuit could result in financial and operational consequences for the company if the court finds in favor of Cornell University.\n"

def opportunityPrompt : String :=
  "\n    You are a business analyst who MUST follow a very specific writing formula to identify an OPPORTUNITY.\n    Analyze the provided \"Press Release Text\" and generate a single paragraph.\n\n    **YOUR TASK IS TO FOLLOW THIS EXACT 5-STEP FORMULA:**\n    1.  **The Opening Sentence:** Start with the date, company name, the positive action (e.g., 'has acquired', 'has launched'), the entity involved, and the immediate purpose.\n    2.  **The Detail Sentence:** Provide a specific, factual detail about the entity or initiative.\n    3.  **The \"Would\" Benefit Sentence:** Describe the direct benefit using the word \"would\". Use transitional phrases like \"Through this acquisition...\".\n    4.  **The Strategic Benefit Sentence:** Describe the broader strategic benefit. Use transitional phrases like \"Further...\".\n    5.  **The Concluding Sentence:** Link the action to a larger company mission or goal.\n    "

def weaknessPrompt : String :=
  "\n    You are a business analyst. Your task is to analyze the provided text and write a single paragraph summarizing a company's WEAKNESS, perfectly replicating the user's writing style.\n\n    **YOUR TASK IS TO FOLLOW THIS PRECISE 3-PART STRUCTURE:**\n\n    1.  **The Negative Event:** In the first sentence, state the date, the company, and the core negative event (e.g., \"faced a lawsuit,\" \"agreed to pay a penalty,\" \"recalled vehicles\").\n    2.  **The Problem Details:** In the next sentence, provide the specific details of the problem. Use phrases like \"The lawsuit alleged that...\", \"According to EPA findings...\", or \"This recall targets...\" to explain the core issue.\n    3.  **The Impact and Implications:** In the final sentence(s), describe the outcome. This can be the direct negative consequence for the company (e.g., financial penalties, reputational damage) OR the broader implications for the industry.\n    "


/-- SWOT_EXAMPLES of app.py: category name to the list of dedented example
paragraphs, in source order. -/
def SWOT_EXAMPLES : List (String × List String) :=
  [("Opportunity", [opportunityExample1, opportunityExample2]),
   ("Weakness", [weaknessExample1, weaknessExample2])]

/-- SWOT_PROMPTS of app.py: category name to the writing-formula text. -/
def SWOT_PROMPTS : List (String × String) :=
  [("Opportunity", opportunityPrompt),
   ("Weakness", weaknessPrompt)]

/-- Python dict .get: the value at the key, or none. -/
def dictGet {α : Type} (d : List (String × α)) (k : String) : Option α :=
  (d.find? (fun p => p.1 == k)).map (fun p => p.2)

/-- Python truthiness of SWOT_PROMPTS.get(c): `not x` is true when x is None
or the empty string. -/
def pyFalsy : Option String → Bool
  | none => true
  | some s => s.isEmpty

/-- Python truthiness of SWOT_EXAMPLES.get(c): `not x` is true when x is None
or the empty list. -/
def pyFalsyList : Option (List String) → Bool
  | none => true
  | some l => l.isEmpty

/-- The delimiter "\n\n---\n\n".join(...) uses in app.py line 83. -/
def exampleSeparator : String := "\n\n---\n\n"

/-- The fixed single-paragraph instruction line of the final_prompt f-string
(app.py line 88). -/
def paragraphInstruction : String :=
  "**You must write the entire output as a single, flowing paragraph. The structure instructions are for the content and sequence of ideas within that paragraph.**"

/-- The final_prompt f-string of app.py lines 85-99, with its three
interpolation holes as arguments.  The literal text between the holes
(including the 4-space indentation of the Python source lines) is kept
verbatim. -/
def final_prompt (prompt_formula formatted_examples text : String) : String :=
  "\n    " ++ prompt_formula
    ++ "\n\n    " ++ paragraphInstruction
    ++ "\n\n    Here are several perfect examples to mimic. Learn the pattern from all of them:\n    ---\n    "
    ++ formatted_examples
    ++ "\n    ---\n\n    **Press Release Text:**\n    ---\n    "
    ++ text
    ++ "\n    ---\n    "

/-- Outcome of model.generate_content: a response whose .text is read, or a
raised exception with message `msg`. -/
inductive ExtResult where
  | ok (text : String)
  | exn (msg : String)
deriving DecidableEq

/-- The external google.generativeai library as seen by generate_swot_point.
configureModel covers genai.configure(api_key=...) together with
GenerativeModel(\'gemini-1.5-flash\') (app.py lines 72-73): some msg when that
block raises an exception with message msg, none when it succeeds.
generate_content is model.generate_content(prompt) of the model configured
with the given key (app.py line 102). -/
structure Env where
  configureModel : String → Option String
  generate_content : String → String → ExtResult

/-- One observable interaction of generate_swot_point with the external
library: the configure/model-construction attempt, or the submission of an
assembled prompt to generate_content. -/
inductive Event where
  | configure (apiKey : String)
  | submit (prompt : String)
deriving DecidableEq

/-- Python str.strip() with no argument (app.py line 103): remove leading and
trailing whitespace characters.  Modelled on the character list so that it
evaluates by rfl (String.trim is defined through well-founded recursion and
does not reduce). -/
def pyStrip (s : String) : String :=
  String.mk (((s.data.dropWhile Char.isWhitespace).reverse.dropWhile
    Char.isWhitespace).reverse)

/-- Error string of app.py line 75. -/
def configureErrorMessage (e : String) : String :=
  "Error configuring the AI model: " ++ e ++ ". Please check your API key."

/-- Error string of app.py line 81. -/
def missingTemplateMessage (c : String) : String :=
  "Error: No prompt or examples found for SWOT category \'" ++ c ++ "\'."

/-- Error string of app.py line 105. -/
def analysisErrorMessage (e : String) : String :=
  "An error occurred during AI analysis: " ++ e

/-- The body of generate_swot_point (app.py lines 69-105), parameterized by
the two dictionaries it reads and by the external environment.  Returns the
string the Python function returns, paired with the list of external
interactions, in order.  Control flow follows the source: first the
try/except around configure and model construction (lines 71-75), then the
two .get lookups and the truthiness guard (lines 77-81), then example
joining and prompt assembly (lines 83-99), then the try/except around
generate_content with .text.strip() on success (lines 101-105). -/
def generate_core (prompts : List (String × String))
    (examples : List (String × List String)) (env : Env)
    (text swot_category api_key : String) : String × List Event :=
  match env.configureModel api_key with
  | some e => (configureErrorMessage e, [Event.configure api_key])
  | none =>
    let prompt_formula := dictGet prompts swot_category
    let example_list := dictGet examples swot_category
    if pyFalsy prompt_formula || pyFalsyList example_list then
      (missingTemplateMessage swot_category, [Event.configure api_key])
    else
      let formatted_examples := String.intercalate exampleSeparator (example_list.getD [])
      let fp := final_prompt (prompt_formula.getD "") formatted_examples text
      match env.generate_content api_key fp with
      | ExtResult.ok r => (pyStrip r, [Event.configure api_key, Event.submit fp])
      | ExtResult.exn e =>
          (analysisErrorMessage e, [Event.configure api_key, Event.submit fp])

/-- generate_swot_point of app.py, reading the module-level SWOT_PROMPTS and
SWOT_EXAMPLES. -/
def generate_swot_point (env : Env) (text swot_category api_key : String) :
    String × List Event :=
  generate_core SWOT_PROMPTS SWOT_EXAMPLES env text swot_category api_key

/-- The pure prompt-assembly part of generate_swot_point: the prompt string
submitted for (text, category), or none when the truthiness guard of line 80
fires.  A function of the dictionaries, the source text and the category
only. -/
def assemble_prompt (prompts : List (String × String))
    (examples : List (String × List String)) (text swot_category : String) :
    Option String :=
  let prompt_formula := dictGet prompts swot_category
  let example_list := dictGet examples swot_category
  if pyFalsy prompt_formula || pyFalsyList example_list then none
  else some (final_prompt (prompt_formula.getD "")
    (String.intercalate exampleSeparator (example_list.getD [])) text)

/-- The value generate_swot_point derives from the outcome of a submitted
generate_content call: the trimmed response text on success, the analysis
error string when the call raises (app.py lines 101-105). -/
def serviceOutcome (env : Env) (api_key prompt : String) : String :=
  match env.generate_content api_key prompt with
  | ExtResult.ok r => pyStrip r
  | ExtResult.exn e => analysisErrorMessage e

/-- Environment whose configure/model step succeeds and whose generate_content
always returns a response with the given text. -/
def okEnv (r : String) : Env :=
  { configureModel := fun _ => none, generate_content := fun _ _ => ExtResult.ok r }

/-- Environment whose configure/model step succeeds and whose generate_content
always raises with the given message. -/
def exnEnv (e : String) : Env :=
  { configureModel := fun _ => none, generate_content := fun _ _ => ExtResult.exn e }

/-- Environment whose configure/model step raises with the given message, as a
malformed credential does at call setup. -/
def confFailEnv (e : String) : Env :=
  { configureModel := fun _ => some e, generate_content := fun _ _ => ExtResult.ok "" }

theorem generate_core_confFail (prompts : List (String × String))
    (examples : List (String × List String)) (env : Env)
    (text cat key e : String) (hc : env.configureModel key = some e) :
    generate_core prompts examples env text cat key
      = (configureErrorMessage e, [Event.configure key]) := by
  simp [generate_core, hc]

theorem generate_core_missing (prompts : List (String × String))
    (examples : List (String × List String)) (env : Env)
    (text cat key : String) (hc : env.configureModel key = none)
    (hg : (pyFalsy (dictGet prompts cat) || pyFalsyList (dictGet examples cat)) = true) :
    generate_core prompts examples env text cat key
      = (missingTemplateMessage cat, [Event.configure key]) := by
  simp [generate_core, hc, hg]

theorem generate_core_submit (prompts : List (String × String))
    (examples : List (String × List String)) (env : Env)
    (text cat key p : String) (hc : env.configureModel key = none)
    (hp : assemble_prompt prompts examples text cat = some p) :
    generate_core prompts examples env text cat key
      = (serviceOutcome env key p, [Event.configure key, Event.submit p]) := by
  have hg : (pyFalsy (dictGet prompts cat) || pyFalsyList (dictGet examples cat)) = false := by
    by_contra hgg
    rw [Bool.not_eq_false] at hgg
    simp [assemble_prompt, hgg] at hp
  have hp2 : p = final_prompt ((dictGet prompts cat).getD "")
      (String.intercalate exampleSeparator ((dictGet examples cat).getD [])) text := by
    simp [assemble_prompt, hg] at hp
    exact hp.symm
  subst hp2
  cases henv : env.generate_content key (final_prompt ((dictGet prompts cat).getD "")
      (String.intercalate exampleSeparator ((dictGet examples cat).getD [])) text) <;>
    simp [generate_core, serviceOutcome, hc, hg, henv]

set_option maxRecDepth 16384 in
theorem assemble_opportunity (text : String) :
    assemble_prompt SWOT_PROMPTS SWOT_EXAMPLES text "Opportunity"
      = some (final_prompt opportunityPrompt
          (String.intercalate exampleSeparator [opportunityExample1, opportunityExample2])
          text) := rfl

set_option maxRecDepth 16384 in
theorem assemble_weakness (text : String) :
    assemble_prompt SWOT_PROMPTS SWOT_EXAMPLES text "Weakness"
      = some (final_prompt weaknessPrompt
          (String.intercalate exampleSeparator [weaknessExample1, weaknessExample2])
          text) := rfl

theorem lookup_unrecognized (cat : String) (h1 : cat ≠ "Opportunity")
    (h2 : cat ≠ "Weakness") :
    dictGet SWOT_PROMPTS cat = none ∧ dictGet SWOT_EXAMPLES cat = none := by
  have e1 : (("Opportunity" : String) == cat) = false := by
    simp [Ne.symm h1]
  have e2 : (("Weakness" : String) == cat) = false := by
    simp [Ne.symm h2]
  constructor <;> simp [dictGet, SWOT_PROMPTS, SWOT_EXAMPLES, List.find?, e1, e2]

/-- C1 counterexample: the configure/model try-block of app.py lines 71-75
runs before the template lookup of lines 77-81, so with an environment in
which call setup raises (a malformed credential), a call with the
unrecognized category "Threat" returns the configuration error string: the
returned value neither contains the category name nor states that no
template was found, contradicting the claim's "for every call". -/
theorem c1_counterexample :
    (generate_swot_point (confFailEnv "bad key") "some text" "Threat" "k").1
        = configureErrorMessage "bad key"
    ∧ ¬ (("Threat" : String).data
          <:+: (generate_swot_point (confFailEnv "bad key") "some text" "Threat" "k").1.data)
    ∧ (generate_swot_point (confFailEnv "bad key") "some text" "Threat" "k").1
        ≠ missingTemplateMessage "Threat" :=
  ⟨rfl, by decide, by decide⟩

/-- C1 (amended): for every call whose configure/model step succeeds and
whose category has no associated template, the returned value is the
missing-template error string, which contains the category name; the
function is total, so no fault escapes in any case. -/
theorem c1_missing_template_names_category (env : Env) (text cat key : String)
    (hconf : env.configureModel key = none)
    (h1 : cat ≠ "Opportunity") (h2 : cat ≠ "Weakness") :
    (generate_swot_point env text cat key).1 = missingTemplateMessage cat
    ∧ cat.data <:+: (generate_swot_point env text cat key).1.data := by
  obtain ⟨hp, he⟩ := lookup_unrecognized cat h1 h2
  have hg : (pyFalsy (dictGet SWOT_PROMPTS cat)
      || pyFalsyList (dictGet SWOT_EXAMPLES cat)) = true := by
    rw [hp, he]
    rfl
  have hmain := generate_core_missing SWOT_PROMPTS SWOT_EXAMPLES env text cat key hconf hg
  have hfst : (generate_swot_point env text cat key).1 = missingTemplateMessage cat := by
    simp only [generate_swot_point, hmain]
  refine ⟨hfst, ?_⟩
  rw [hfst]
  refine ⟨("Error: No prompt or examples found for SWOT category \'" : String).data,
    ("\'." : String).data, ?_⟩
  simp [missingTemplateMessage, String.data_append]

theorem c1_witness :
    (generate_swot_point (okEnv "resp") "txt" "Threat" "key0").1
        = missingTemplateMessage "Threat"
    ∧ ("Threat" : String).data
        <:+: (generate_swot_point (okEnv "resp") "txt" "Threat" "key0").1.data :=
  c1_missing_template_names_category (okEnv "resp") "txt" "Threat" "key0" rfl
    (by decide) (by decide)

/-- C2: every failure of the external library is caught inside
generate_swot_point and mapped to a human-readable string that embeds the
underlying message: a call-setup failure with message e yields the
configuration error string around e (app.py lines 74-75), and a raising
generate_content call with message e yields the analysis error string
around e (app.py lines 104-105).  The function always returns a string, so
no exception crosses its boundary. -/
theorem c2_external_failure_to_string (env : Env) (text cat key e p : String) :
    (env.configureModel key = some e →
        (generate_swot_point env text cat key).1 = configureErrorMessage e)
    ∧ (env.configureModel key = none →
        assemble_prompt SWOT_PROMPTS SWOT_EXAMPLES text cat = some p →
        env.generate_content key p = ExtResult.exn e →
        (generate_swot_point env text cat key).1 = analysisErrorMessage e) := by
  constructor
  · intro hc
    simp only [generate_swot_point,
      generate_core_confFail SWOT_PROMPTS SWOT_EXAMPLES env text cat key e hc]
  · intro hc hp hx
    simp only [generate_swot_point,
      generate_core_submit SWOT_PROMPTS SWOT_EXAMPLES env text cat key p hc hp]
    simp [serviceOutcome, hx]

theorem c2_witness :
    (generate_swot_point (confFailEnv "invalid api key") "t" "Opportunity" "kk").1
        = configureErrorMessage "invalid api key"
    ∧ (generate_swot_point (exnEnv "quota exceeded") "t" "Opportunity" "kk").1
        = analysisErrorMessage "quota exceeded" :=
  ⟨(c2_external_failure_to_string (confFailEnv "invalid api key") "t" "Opportunity" "kk"
      "invalid api key" "").1 rfl,
   (c2_external_failure_to_string (exnEnv "quota exceeded") "t" "Opportunity" "kk"
      "quota exceeded"
      (final_prompt opportunityPrompt
        (String.intercalate exampleSeparator [opportunityExample1, opportunityExample2])
        "t")).2 rfl (assemble_opportunity "t") rfl⟩

/-- C3: whenever call setup succeeds, the category has a template and the
external call returns a response text r, generate_swot_point returns
exactly pyStrip r, i.e. r with leading and trailing whitespace stripped and
nothing else changed (app.py line 103). -/
theorem c3_success_returns_trimmed (env : Env) (text cat key r p : String)
    (hconf : env.configureModel key = none)
    (hp : assemble_prompt SWOT_PROMPTS SWOT_EXAMPLES text cat = some p)
    (hr : env.generate_content key p = ExtResult.ok r) :
    (generate_swot_point env text cat key).1 = pyStrip r := by
  simp only [generate_swot_point,
    generate_core_submit SWOT_PROMPTS SWOT_EXAMPLES env text cat key p hconf hp]
  simp [serviceOutcome, hr]

theorem c3_witness :
    (generate_swot_point (okEnv "  Hello world.  \n") "t" "Opportunity" "k").1
        = "Hello world." := by
  have h := c3_success_returns_trimmed (okEnv "  Hello world.  \n") "t" "Opportunity" "k"
    "  Hello world.  \n"
    (final_prompt opportunityPrompt
      (String.intercalate exampleSeparator [opportunityExample1, opportunityExample2]) "t")
    rfl (assemble_opportunity "t") rfl
  exact h.trans (by decide)

/-- C4: for both recognized categories the assembled prompt is, in order of
appearance, the category's formula text first, then the fixed
single-paragraph instruction, then the joined examples block wrapped
between "---" delimiter lines, then the caller's source text wrapped
between "---" delimiter lines under the fixed "**Press Release Text:**"
label; the source text occurs verbatim and unmodified as a concatenation
component of its block. -/
theorem c4_prompt_order (text : String) :
    assemble_prompt SWOT_PROMPTS SWOT_EXAMPLES text "Opportunity"
      = some ("\n    " ++ opportunityPrompt
          ++ "\n\n    " ++ paragraphInstruction
          ++ "\n\n    Here are several perfect examples to mimic. Learn the pattern from all of them:\n    ---\n    "
          ++ String.intercalate exampleSeparator [opportunityExample1, opportunityExample2]
          ++ "\n    ---\n\n    **Press Release Text:**\n    ---\n    "
          ++ text ++ "\n    ---\n    ")
    ∧ assemble_prompt SWOT_PROMPTS SWOT_EXAMPLES text "Weakness"
      = some ("\n    " ++ weaknessPrompt
          ++ "\n\n    " ++ paragraphInstruction
          ++ "\n\n    Here are several perfect examples to mimic. Learn the pattern from all of them:\n    ---\n    "
          ++ String.intercalate exampleSeparator [weaknessExample1, weaknessExample2]
          ++ "\n    ---\n\n    **Press Release Text:**\n    ---\n    "
          ++ text ++ "\n    ---\n    ") :=
  ⟨assemble_opportunity text, assemble_weakness text⟩

/-- C5: for both recognized categories the examples block of the assembled
prompt is the category's stored example paragraphs joined in stored order,
adjacent examples separated by exactly one "---" line surrounded by blank
lines, with no reordering and no deduplication: for the two-element stored
lists the join is literally first ++ "\n\n---\n\n" ++ second. -/
theorem c5_examples_join (text : String) :
    String.intercalate exampleSeparator [opportunityExample1, opportunityExample2]
        = opportunityExample1 ++ "\n\n---\n\n" ++ opportunityExample2
    ∧ String.intercalate exampleSeparator [weaknessExample1, weaknessExample2]
        = weaknessExample1 ++ "\n\n---\n\n" ++ weaknessExample2
    ∧ assemble_prompt SWOT_PROMPTS SWOT_EXAMPLES text "Opportunity"
        = some (final_prompt opportunityPrompt
            (opportunityExample1 ++ "\n\n---\n\n" ++ opportunityExample2) text)
    ∧ assemble_prompt SWOT_PROMPTS SWOT_EXAMPLES text "Weakness"
        = some (final_prompt weaknessPrompt
            (weaknessExample1 ++ "\n\n---\n\n" ++ weaknessExample2) text) :=
  ⟨rfl, rfl, assemble_opportunity text, assemble_weakness text⟩

/-- C6: prompt assembly is a pure function of (text, category) alone: every
prompt generate_swot_point ever submits to the external generate_content
call equals assemble_prompt SWOT_PROMPTS SWOT_EXAMPLES text cat, a term in
which the credential does not occur, so for a fixed (text, category) the
submitted prompt is the same string across calls and across credential
values. -/
theorem c6_submitted_prompt_pure (env : Env) (text cat key p : String)
    (h : Event.submit p ∈ (generate_swot_point env text cat key).2) :
    assemble_prompt SWOT_PROMPTS SWOT_EXAMPLES text cat = some p := by
  simp only [generate_swot_point] at h
  cases hc : env.configureModel key with
  | some e =>
    rw [generate_core_confFail SWOT_PROMPTS SWOT_EXAMPLES env text cat key e hc] at h
    simp at h
  | none =>
    by_cases hg : (pyFalsy (dictGet SWOT_PROMPTS cat)
        || pyFalsyList (dictGet SWOT_EXAMPLES cat)) = true
    · rw [generate_core_missing SWOT_PROMPTS SWOT_EXAMPLES env text cat key hc hg] at h
      simp at h
    · have hg2 : (pyFalsy (dictGet SWOT_PROMPTS cat)
          || pyFalsyList (dictGet SWOT_EXAMPLES cat)) = false := by
        rwa [Bool.not_eq_true] at hg
      have hp : assemble_prompt SWOT_PROMPTS SWOT_EXAMPLES text cat
          = some (final_prompt ((dictGet SWOT_PROMPTS cat).getD "")
              (String.intercalate exampleSeparator ((dictGet SWOT_EXAMPLES cat).getD []))
              text) := by
        simp [assemble_prompt, hg2]
      rw [generate_core_submit SWOT_PROMPTS SWOT_EXAMPLES env text cat key _ hc hp] at h
      simp at h
      rw [h]
      exact hp

theorem c6_witness :
    assemble_prompt SWOT_PROMPTS SWOT_EXAMPLES "press release" "Opportunity"
      = some (final_prompt opportunityPrompt
          (String.intercalate exampleSeparator [opportunityExample1, opportunityExample2])
          "press release") := by
  refine c6_submitted_prompt_pure (okEnv "r") "press release" "Opportunity" "secret-key" _ ?_
  have h2 := generate_core_submit SWOT_PROMPTS SWOT_EXAMPLES (okEnv "r") "press release"
    "Opportunity" "secret-key" _ rfl (assemble_opportunity "press release")
  simp only [generate_swot_point, h2]
  exact List.Mem.tail _ (List.Mem.head _)

set_option maxRecDepth 16384 in
/-- C7: both recognized categories are mapped by the stores to a non-empty
formula and to an example list with at least one non-empty example, and the
stores are constant definitions (never mutated), so repeated lookups return
equal content by construction. -/
theorem c7_store_wellformed :
    dictGet SWOT_PROMPTS "Opportunity" = some opportunityPrompt
    ∧ opportunityPrompt.isEmpty = false
    ∧ dictGet SWOT_EXAMPLES "Opportunity" = some [opportunityExample1, opportunityExample2]
    ∧ [opportunityExample1, opportunityExample2].any (fun e => !e.isEmpty) = true
    ∧ dictGet SWOT_PROMPTS "Weakness" = some weaknessPrompt
    ∧ weaknessPrompt.isEmpty = false
    ∧ dictGet SWOT_EXAMPLES "Weakness" = some [weaknessExample1, weaknessExample2]
    ∧ [weaknessExample1, weaknessExample2].any (fun e => !e.isEmpty) = true :=
  ⟨rfl, rfl, rfl, rfl, rfl, rfl, rfl, rfl⟩

/-- C8 counterexample: generate_swot_point configures the external client
(app.py lines 71-75) before looking up the template (lines 77-81), not the
other way round: with an environment in which call setup raises, a call
with an absent category returns the configuration error string, not the
missing-category string, and the interaction trace shows the configure
attempt; so the lookup is not the first step and the missing-category
string is not returned for every credential value. -/
theorem c8_counterexample :
    (generate_swot_point (confFailEnv "invalid key") "t" "NoSuchCategory" "k8").1
        = configureErrorMessage "invalid key"
    ∧ (generate_swot_point (confFailEnv "invalid key") "t" "NoSuchCategory" "k8").1
        ≠ missingTemplateMessage "NoSuchCategory"
    ∧ (generate_swot_point (confFailEnv "invalid key") "t" "NoSuchCategory" "k8").2
        = [Event.configure "k8"] :=
  ⟨rfl, by decide, rfl⟩

/-- C8 (amended): client configuration is attempted first; whenever it
succeeds and the category has no associated template, generate_swot_point
returns the missing-category error string and its only external interaction
is the configure attempt: no prompt is ever submitted to the generation
call, for every credential value. -/
theorem c8_no_submission_for_missing (env : Env) (text cat key : String)
    (hconf : env.configureModel key = none)
    (h1 : cat ≠ "Opportunity") (h2 : cat ≠ "Weakness") :
    (generate_swot_point env text cat key).2 = [Event.configure key]
    ∧ (generate_swot_point env text cat key).1 = missingTemplateMessage cat := by
  obtain ⟨hp, he⟩ := lookup_unrecognized cat h1 h2
  have hg : (pyFalsy (dictGet SWOT_PROMPTS cat)
      || pyFalsyList (dictGet SWOT_EXAMPLES cat)) = true := by
    rw [hp, he]
    rfl
  have hmain := generate_core_missing SWOT_PROMPTS SWOT_EXAMPLES env text cat key hconf hg
  constructor <;> simp only [generate_swot_point, hmain]

theorem c8_witness :
    (generate_swot_point (okEnv "x") "doc" "Strength" "key8").2
        = [Event.configure "key8"]
    ∧ (generate_swot_point (okEnv "x") "doc" "Strength" "key8").1
        = missingTemplateMessage "Strength" :=
  c8_no_submission_for_missing (okEnv "x") "doc" "Strength" "key8" rfl
    (by decide) (by decide)

/-- C9 counterexample: with an environment in which call setup raises (the
spec's CredentialError at call setup), a call with empty source text and
the recognized category "Opportunity" submits nothing to the external
service — the trace holds only the configure attempt — and returns the
configuration error string, so the prompt is not "still assembled and
submitted" for every such call. -/
theorem c9_counterexample :
    (generate_swot_point (confFailEnv "bad credential") "" "Opportunity" "k9").2
        = [Event.configure "k9"]
    ∧ (generate_swot_point (confFailEnv "bad credential") "" "Opportunity" "k9").1
        = configureErrorMessage "bad credential" :=
  ⟨rfl, rfl⟩

/-- C9 (amended): generate_swot_point performs no emptiness validation of the
source text: whenever client configuration succeeds, a call with empty or
whitespace-only source text and a recognized category still assembles the
prompt, submits it to the external generation call, and returns the
service outcome (trimmed response or analysis-failure string) — never a
local validation error.  The emptiness hypothesis only delimits the
claim's scope: the proof nowhere inspects the text, which is the absence
of validation. -/
theorem c9_empty_text_still_submitted (env : Env) (text key : String)
    (hconf : env.configureModel key = none) (htext : pyStrip text = "") :
    ((generate_swot_point env text "Opportunity" key).2
        = [Event.configure key, Event.submit (final_prompt opportunityPrompt
            (String.intercalate exampleSeparator [opportunityExample1, opportunityExample2])
            text)]
      ∧ (generate_swot_point env text "Opportunity" key).1
        = serviceOutcome env key (final_prompt opportunityPrompt
            (String.intercalate exampleSeparator [opportunityExample1, opportunityExample2])
            text))
    ∧ ((generate_swot_point env text "Weakness" key).2
        = [Event.configure key, Event.submit (final_prompt weaknessPrompt
            (String.intercalate exampleSeparator [weaknessExample1, weaknessExample2])
            text)]
      ∧ (generate_swot_point env text "Weakness" key).1
        = serviceOutcome env key (final_prompt weaknessPrompt
            (String.intercalate exampleSeparator [weaknessExample1, weaknessExample2])
            text)) := by
  have ho := generate_core_submit SWOT_PROMPTS SWOT_EXAMPLES env text "Opportunity" key _
    hconf (assemble_opportunity text)
  have hw := generate_core_submit SWOT_PROMPTS SWOT_EXAMPLES env text "Weakness" key _
    hconf (assemble_weakness text)
  exact ⟨⟨by simp only [generate_swot_point, ho], by simp only [generate_swot_point, ho]⟩,
    ⟨by simp only [generate_swot_point, hw], by simp only [generate_swot_point, hw]⟩⟩

theorem c9_witness :
    (generate_swot_point (okEnv "ok") "" "Opportunity" "key9").2
        = [Event.configure "key9", Event.submit (final_prompt opportunityPrompt
            (String.intercalate exampleSeparator [opportunityExample1, opportunityExample2])
            "")] :=
  (c9_empty_text_still_submitted (okEnv "ok") "" "key9" rfl rfl).1.1

/-- C10: the guard of app.py line 80 tests the looked-up values for Python
falsiness rather than key presence, so a category that is present in the
stores but mapped to an empty formula string, or to an empty examples list,
is treated exactly like an absent category: for every environment the whole
observable outcome (returned string and interaction trace) equals that of
the empty store, and when call setup succeeds the result is the same
missing-template error string naming the category, with no submission to
the external service. -/
theorem c10_falsy_template_like_absent (env : Env)
    (text cat key formula : String) (exs : List String) :
    generate_core [(cat, "")] [(cat, exs)] env text cat key
        = generate_core [] [] env text cat key
    ∧ generate_core [(cat, formula)] [(cat, [])] env text cat key
        = generate_core [] [] env text cat key
    ∧ (env.configureModel key = none →
        generate_core [(cat, "")] [(cat, exs)] env text cat key
          = (missingTemplateMessage cat, [Event.configure key])
        ∧ generate_core [(cat, formula)] [(cat, [])] env text cat key
          = (missingTemplateMessage cat, [Event.configure key])) := by
  have d1 : dictGet [(cat, "")] cat = some "" := by
    simp [dictGet, List.find?]
  have d2 : dictGet [(cat, formula)] cat = some formula := by
    simp [dictGet, List.find?]
  have d3 : dictGet [(cat, ([] : List String))] cat = some [] := by
    simp [dictGet, List.find?]
  have g1 : (pyFalsy (dictGet [(cat, "")] cat)
      || pyFalsyList (dictGet [(cat, exs)] cat)) = true := by
    rw [d1]
    rfl
  have g2 : (pyFalsy (dictGet [(cat, formula)] cat)
      || pyFalsyList (dictGet [(cat, ([] : List String))] cat)) = true := by
    rw [d2, d3]
    simp [pyFalsy, pyFalsyList]
  have g0 : (pyFalsy (dictGet ([] : List (String × String)) cat)
      || pyFalsyList (dictGet ([] : List (String × List String)) cat)) = true := rfl
  refine ⟨?_, ?_, fun hc =>
    ⟨generate_core_missing _ _ env text cat key hc g1,
     generate_core_missing _ _ env text cat key hc g2⟩⟩
  · cases hc : env.configureModel key with
    | some e =>
      rw [generate_core_confFail _ _ env text cat key e hc,
        generate_core_confFail _ _ env text cat key e hc]
    | none =>
      rw [generate_core_missing _ _ env text cat key hc g1,
        generate_core_missing _ _ env text cat key hc g0]
  · cases hc : env.configureModel key with
    | some e =>
      rw [generate_core_confFail _ _ env text cat key e hc,
        generate_core_confFail _ _ env text cat key e hc]
    | none =>
      rw [generate_core_missing _ _ env text cat key hc g2,
        generate_core_missing _ _ env text cat key hc g0]

theorem c10_witness :
    generate_core [("Strength", "")] [("Strength", ["ex"])] (okEnv "resp10")
        "doc" "Strength" "key10"
        = (missingTemplateMessage "Strength", [Event.configure "key10"])
    ∧ generate_core [("Strength", "formula text")] [("Strength", [])] (okEnv "resp10")
        "doc" "Strength" "key10"
        = (missingTemplateMessage "Strength", [Event.configure "key10"]) :=
  (c10_falsy_template_like_absent (okEnv "resp10") "doc" "Strength" "key10"
    "formula text" ["ex"]).2.2 rfl

end SwotApp
